import Mathlib

/-!
Shallow embedding of `src/main.py` (a multi-agent research/write/review
workflow script) and proofs of its specified properties.

The script declares: a shared mutable state dict (seeded by the workflow
declaration), four tool functions (three of which perform a scoped
read-modify-write on the state), three agent declarations with allowed
handoff targets, a startup credential check, and a console event renderer.
Python dicts are modelled as association lists preserving insertion order;
the possibly-missing `research_notes` key is modelled with `Option`, and the
dict lookup that would raise `KeyError` on a missing key is modelled by a
fallible (`Option`-returning) tool function.
-/

namespace PRDAgents

/-- A Python dict with string keys and values, as an insertion-ordered
association list (no duplicate keys are ever created by `dictInsert`). -/
abbrev PyDict := List (String × String)

/-- `d[k]`: the value stored under key `k`, if present. -/
def dictGet : PyDict → String → Option String
  | [], _ => none
  | (k, v) :: rest, key => if k = key then some v else dictGet rest key

/-- `d[k] = v`: overwrite in place if the key exists, else append
(Python dict assignment keeps the original key position). -/
def dictInsert : PyDict → String → String → PyDict
  | [], key, val => [(key, val)]
  | (k, v) :: rest, key, val =>
    if k = key then (k, val) :: rest else (k, v) :: dictInsert rest key val

/-- The shared workflow state dict. `research_notes` is `Option`al because
the state dict may lack that key (`record_notes` explicitly guards on
`"research_notes" not in ctx_state["state"]`); the other two fields are
only ever written by plain assignment, which always succeeds. -/
structure WorkflowState where
  research_notes : Option PyDict
  report_content : String
  review : String
deriving DecidableEq

/-- `record_notes(ctx, notes, notes_title)`: inside a scoped state edit,
ensure the `research_notes` mapping exists, then set entry `notes_title` to
`notes`; return the fixed confirmation string. The inner dict lookup is
fallible (`none` models a `KeyError`), but the guard makes it always
succeed. -/
def record_notes (st : WorkflowState) (notes : String) (notes_title : String) :
    Option (WorkflowState × String) :=
  let st1 := if st.research_notes.isNone
    then { st with research_notes := some [] } else st
  match st1.research_notes with
  | none => none
  | some rn =>
    some ({ st1 with research_notes := some (dictInsert rn notes_title notes) },
      "Notes recorded.")

/-- `write_report(ctx, report_content)`: inside a scoped state edit,
overwrite `report_content`; return the fixed confirmation string. -/
def write_report (st : WorkflowState) (report_content : String) :
    WorkflowState × String :=
  ({ st with report_content := report_content }, "Report written.")

/-- `review_report(ctx, review)`: inside a scoped state edit, overwrite
`review`; return the fixed confirmation string. -/
def review_report (st : WorkflowState) (review : String) :
    WorkflowState × String :=
  ({ st with review := review }, "Report reviewed.")

/-- Run a sequence of `record_notes` calls that share one `notes_title`,
threading the state; the whole run fails if any single call fails. -/
def runNotesSeq (notes_title : String) : WorkflowState → List String → Option WorkflowState
  | st, [] => some st
  | st, n :: ns =>
    match record_notes st n notes_title with
    | none => none
    | some (st', _) => runNotesSeq notes_title st' ns

/-- A `FunctionAgent` declaration: name, description, system prompt, bound
tools (by name) and permitted handoff targets. -/
structure FunctionAgent where
  name : String
  description : String
  system_prompt : String
  tools : List String
  can_handoff_to : List String
deriving DecidableEq

/-- The `ResearchAgent` declaration. -/
def research_agent : FunctionAgent :=
  { name := "ResearchAgent"
    description := "Useful for searching the web for information and recording notes."
    system_prompt :=
      "Your ONLY job is to research topics using your tools and record detailed notes. " ++
      "You MUST NOT write the final report. You are forbidden from generating final content. " ++
      "First, use your tools to find information. Second, record that information as notes. " ++
      "Once you have sufficient notes, you MUST hand off control to the 'WriteAgent'."
    tools := ["search_web", "record_notes"]
    can_handoff_to := ["WriteAgent"] }

/-- The `WriteAgent` declaration. -/
def write_agent : FunctionAgent :=
  { name := "WriteAgent"
    description := "Useful for writing a report on a given topic."
    system_prompt :=
      "You are the WriteAgent. Your job is to write a report in markdown format " ++
      "based *only* on the provided research notes. Once done, hand off to the ReviewAgent."
    tools := ["write_report"]
    can_handoff_to := ["ReviewAgent", "ResearchAgent"] }

/-- The `ReviewAgent` declaration. -/
def review_agent : FunctionAgent :=
  { name := "ReviewAgent"
    description := "Useful for reviewing a report and providing feedback."
    system_prompt :=
      "You are the ReviewAgent. Review the report and provide feedback. " ++
      "Approve it or request changes and hand off back to the WriteAgent if necessary."
    tools := ["review_report"]
    can_handoff_to := ["ResearchAgent", "WriteAgent"] }

/-- The `AgentWorkflow` declaration: agent list, root agent name, and the
state the runner seeds the shared store with before any tool runs. -/
structure AgentWorkflow where
  agents : List FunctionAgent
  root_agent : String
  initial_state : WorkflowState

/-- The `agent_workflow` value constructed at module load. -/
def agent_workflow : AgentWorkflow :=
  { agents := [research_agent, write_agent, review_agent]
    root_agent := research_agent.name
    initial_state :=
      { research_notes := some []
        report_content := "Not written yet."
        review := "Review required." } }

/-- A handoff `a → b` permitted by the declarations: some declared agent is
named `a` and lists `b` among its `can_handoff_to` targets. -/
def declStep (a b : String) : Prop :=
  ∃ ag, ag ∈ agent_workflow.agents ∧ ag.name = a ∧ b ∈ ag.can_handoff_to

/-- Agents reachable from the declared root agent by declared handoffs. -/
inductive ReachableAgent : String → Prop where
  | root : ReachableAgent agent_workflow.root_agent
  | step {a b : String} : ReachableAgent a → declStep a b → ReachableAgent b

/-- Python falsiness of `os.getenv("GOOGLE_API_KEY")`: `not value` is true
exactly when the variable is absent (`None`) or set to the empty string. -/
def apiKeyFalsy (env : String → Option String) : Bool :=
  match env "GOOGLE_API_KEY" with
  | none => true
  | some s => s = ""

/-- The module-level startup sequence, as the ordered trace of steps it
performs together with its outcome. `load_dotenv()` runs first (the `env`
argument is the environment after it); then the credential check either
raises `ValueError` — before the two LLM configurations, the agent
definitions or the workflow construction, and before any network call —
or startup continues through those steps and yields the workflow. -/
def startup (env : String → Option String) :
    List String × Except String AgentWorkflow :=
  if apiKeyFalsy env then
    (["load_dotenv"],
      Except.error
        "GOOGLE_API_KEY not found. Please create a .env file and set your API key.")
  else
    (["load_dotenv", "configure_llm", "configure_search_llm",
      "define_tools_and_agents", "construct_workflow"],
      Except.ok agent_workflow)

/-- A Python value reaching `str(...)`: tool outputs need not be text. -/
inductive PyValue where
  | str (s : String)
  | int (n : Int)
  | noneV
  | boolV (b : Bool)
deriving DecidableEq

/-- Python `str(v)` on the modelled values; total (never raises). -/
def pyStr : PyValue → String
  | .str s => s
  | .int n => toString n
  | .noneV => "None"
  | .boolV true => "True"
  | .boolV false => "False"

/-- Python string slicing `s[:n]`: the first `n` characters (code points). -/
def pySlice (s : String) (n : Nat) : String := ⟨s.data.take n⟩

/-- Does `sub` stand at the head of `l`? -/
def beginsWith : List Char → List Char → Bool
  | [], _ => true
  | _ :: _, [] => false
  | a :: as, b :: bs => a == b && beginsWith as bs

/-- Does `sub` occur contiguously anywhere in `l`? -/
def containsSub (sub : List Char) : List Char → Bool
  | [] => beginsWith sub []
  | c :: cs => beginsWith sub (c :: cs) || containsSub sub cs

/-- Python `needle in hay` on strings (substring test). -/
def pyContains (needle hay : String) : Bool := containsSub needle.data hay.data

/-- An event from `handler.stream_events()`, restricted to the variants the
renderer distinguishes. Per the orchestration library, `AgentOutput` carries
a `current_agent_name` attribute (so `hasattr(event, "current_agent_name")`
holds for it), while `ToolCall` and `ToolCallResult` do not. An
`agentOutput`'s `content` is the response text (`""` models an empty or
`None` content) and `tool_calls` the planned tool names. -/
inductive Event where
  | agentOutput (current_agent_name : String) (content : String)
      (tool_calls : List String)
  | toolCallResult (tool_name : String) (tool_output : PyValue)
  | toolCall (tool_name : String) (tool_kwargs : String)
deriving DecidableEq

/-- `hasattr(event, "current_agent_name")`, with the attribute's value. -/
def eventCurrentAgentName : Event → Option String
  | .agentOutput n _ _ => some n
  | .toolCallResult _ _ => none
  | .toolCall _ _ => none

/-- One line printed by the renderer, as a tagged value carrying the
printed payload (the surrounding fixed format text is elided). -/
inductive OutputLine where
  | banner (agent : String)
  | output (content : String)
  | planningTools (tool_names : List String)
  | toolResultHeader (tool_name : String)
  | toolResultOutput (truncated : String)
  | callingTool (tool_name : String)
  | callingArgs (kwargs : String)
deriving DecidableEq

/-- The `elif` chain of the event loop body (reached only when the leading
`hasattr` branch did not fire): print the agent output's non-empty content
and/or non-empty planned tool list, or a tool result header plus its output
truncated to 300 characters, or — for non-handoff tool calls only — the
tool name and arguments. -/
def renderBody (current : Option String) : Event → Option String × List OutputLine
  | .agentOutput _ content tool_calls =>
    (current,
      (if content ≠ "" then [OutputLine.output content] else []) ++
      (if tool_calls ≠ [] then [OutputLine.planningTools tool_calls] else []))
  | .toolCallResult name out =>
    (current, [OutputLine.toolResultHeader name,
      OutputLine.toolResultOutput (pySlice (pyStr out) 300)])
  | .toolCall name kwargs =>
    (current,
      if pyContains "handoff" name then []
      else [OutputLine.callingTool name, OutputLine.callingArgs kwargs])

/-- The body of the `async for event in handler.stream_events()` loop:
given the tracked `current_agent` (initially `none`) and the event, return
the updated tracked agent and the lines printed. The first branch — an
event bearing `current_agent_name` different from the tracked agent —
updates the tracked agent and prints the banner only; every other event
falls through to the `elif` chain. -/
def renderEvent (current : Option String) (e : Event) :
    Option String × List OutputLine :=
  match eventCurrentAgentName e with
  | some n => if some n ≠ current then (some n, [OutputLine.banner n])
      else renderBody current e
  | none => renderBody current e

/-- A concrete 301-character tool output, for exercising truncation. -/
def longOutput : String := ⟨List.replicate 301 'x'⟩

/-! ## Helper lemmas -/

/-- Looking up a key right after inserting it yields the inserted value. -/
theorem dictGet_dictInsert_self (d : PyDict) (k v : String) :
    dictGet (dictInsert d k v) k = some v := by
  induction d with
  | nil => simp [dictInsert, dictGet]
  | cons p rest ih =>
    obtain ⟨k', v'⟩ := p
    by_cases hk : k' = k
    · subst hk; simp [dictInsert, dictGet]
    · simp [dictInsert, dictGet, hk, ih]

/-- `record_notes` always succeeds, returns the fixed confirmation, inserts
the entry into the (created-if-missing) notes dict, and leaves the other
two fields unchanged. -/
theorem record_notes_spec (st : WorkflowState) (n t : String) :
    ∃ rn, record_notes st n t =
      some ({ research_notes := some (dictInsert rn t n)
              report_content := st.report_content
              review := st.review }, "Notes recorded.") := by
  cases h : st.research_notes with
  | none => exact ⟨[], by simp [record_notes, h]⟩
  | some rn => exact ⟨rn, by simp [record_notes, h]⟩

/-- Length of a Python string slice `s[:n]`. -/
theorem pySlice_length (s : String) (n : Nat) :
    (pySlice s n).length = min n s.length := by
  rcases s with ⟨l⟩
  show (List.take n l).length = min n l.length
  simp

/-! ## Claim theorems -/

/-- Claim C1: for every sequence of `record_notes` calls sharing one
`notes_title`, every call succeeds and the value stored under that title
afterwards is the `notes` argument of the last call (last-write-wins). -/
theorem record_notes_last_write_wins (st : WorkflowState) (title lastv : String)
    (ns : List String) (h : ns.getLast? = some lastv) :
    ∃ st' rn, runNotesSeq title st ns = some st' ∧
      st'.research_notes = some rn ∧ dictGet rn title = some lastv := by
  induction ns generalizing st with
  | nil => simp at h
  | cons n ns ih =>
    obtain ⟨rn0, hrec⟩ := record_notes_spec st n title
    cases ns with
    | nil =>
      simp at h
      subst h
      refine ⟨{ research_notes := some (dictInsert rn0 title n)
                report_content := st.report_content
                review := st.review },
        dictInsert rn0 title n, ?_, rfl, dictGet_dictInsert_self rn0 title n⟩
      simp [runNotesSeq, hrec]
    | cons m ms =>
      have h' : (m :: ms).getLast? = some lastv := by
        rwa [List.getLast?_cons_cons] at h
      obtain ⟨st', rn, hrun, hrn, hget⟩ :=
        ih { research_notes := some (dictInsert rn0 title n)
             report_content := st.report_content
             review := st.review } h'
      refine ⟨st', rn, ?_, hrn, hget⟩
      simpa [runNotesSeq, hrec] using hrun

/-- Witness for C1: two calls titled `"title"`, the second storing
`"second"`. -/
theorem record_notes_last_write_wins_witness :
    (["first", "second"] : List String).getLast? = some "second" ∧
    ∃ st' rn,
      runNotesSeq "title" agent_workflow.initial_state ["first", "second"] = some st' ∧
      st'.research_notes = some rn ∧ dictGet rn "title" = some "second" :=
  ⟨rfl, record_notes_last_write_wins agent_workflow.initial_state "title" "second"
    ["first", "second"] rfl⟩

/-- Claim C2: the state the workflow declaration seeds the shared store with
(before any tool runs) has the empty notes mapping, `"Not written yet."` as
the report and `"Review required."` as the review. -/
theorem agent_workflow_initial_state :
    agent_workflow.initial_state.research_notes = some [] ∧
    agent_workflow.initial_state.report_content = "Not written yet." ∧
    agent_workflow.initial_state.review = "Review required." :=
  ⟨rfl, rfl, rfl⟩

/-- Claim C3: `write_report` and `review_report` each overwrite exactly
their own field with exactly their argument; the post-state is fully
characterised as a single atomic transition from the pre-state, so no
intermediate (partially written) state exists in the transition system. -/
theorem write_review_full_overwrite (st : WorkflowState) (rc rv : String) :
    write_report st rc = ({ st with report_content := rc }, "Report written.") ∧
    review_report st rv = ({ st with review := rv }, "Report reviewed.") ∧
    (write_report st rc).1.report_content = rc ∧
    (review_report st rv).1.review = rv :=
  ⟨rfl, rfl, rfl, rfl⟩

/-- Claim C4: an absent or empty `GOOGLE_API_KEY` makes startup raise after
`load_dotenv` alone — before LLM configuration, workflow construction or any
network call; a present non-empty key makes startup complete without that
error. -/
theorem startup_requires_api_key (env : String → Option String) :
    (env "GOOGLE_API_KEY" = none ∨ env "GOOGLE_API_KEY" = some "" →
      startup env = (["load_dotenv"],
        Except.error
          "GOOGLE_API_KEY not found. Please create a .env file and set your API key.")) ∧
    (∀ k, env "GOOGLE_API_KEY" = some k → k ≠ "" →
      startup env = (["load_dotenv", "configure_llm", "configure_search_llm",
        "define_tools_and_agents", "construct_workflow"], Except.ok agent_workflow)) := by
  constructor
  · rintro (h | h) <;> simp [startup, apiKeyFalsy, h]
  · intro k hk hne
    simp [startup, apiKeyFalsy, hk, hne]

/-- Witness for C4: a concrete empty environment fails with only
`load_dotenv` performed; a concrete keyed environment succeeds. -/
theorem startup_requires_api_key_witness :
    startup (fun _ => none) = (["load_dotenv"],
      Except.error
        "GOOGLE_API_KEY not found. Please create a .env file and set your API key.") ∧
    startup (fun _ => some "sk-123") = (["load_dotenv", "configure_llm",
      "configure_search_llm", "define_tools_and_agents", "construct_workflow"],
      Except.ok agent_workflow) :=
  ⟨(startup_requires_api_key (fun _ => none)).1 (Or.inl rfl),
    (startup_requires_api_key (fun _ => some "sk-123")).2 "sk-123" rfl (by decide)⟩

/-- Claim C5: the declared machine has states ResearchAgent, WriteAgent,
ReviewAgent with root ResearchAgent, the declared handoff sets are exactly
those of the source, and every handoff reachable under the declarations
lies in the declared edge set. -/
theorem declared_handoff_graph (a b : String)
    (hreach : ReachableAgent a) (hstep : declStep a b) :
    agent_workflow.root_agent = "ResearchAgent" ∧
    agent_workflow.agents.map FunctionAgent.name =
      ["ResearchAgent", "WriteAgent", "ReviewAgent"] ∧
    research_agent.can_handoff_to = ["WriteAgent"] ∧
    write_agent.can_handoff_to = ["ReviewAgent", "ResearchAgent"] ∧
    review_agent.can_handoff_to = ["ResearchAgent", "WriteAgent"] ∧
    (a, b) ∈ [("ResearchAgent", "WriteAgent"), ("WriteAgent", "ReviewAgent"),
      ("WriteAgent", "ResearchAgent"), ("ReviewAgent", "ResearchAgent"),
      ("ReviewAgent", "WriteAgent")] := by
  refine ⟨rfl, rfl, rfl, rfl, rfl, ?_⟩
  obtain ⟨ag, hmem, hname, hb⟩ := hstep
  subst hname
  simp [agent_workflow] at hmem
  rcases hmem with h | h | h
  · subst h
    simp [research_agent] at hb
    subst hb
    decide
  · subst h
    simp [write_agent] at hb
    rcases hb with hb | hb <;> subst hb <;> decide
  · subst h
    simp [review_agent] at hb
    rcases hb with hb | hb <;> subst hb <;> decide

/-- Witness for C5: the root agent itself is reachable and its sole
declared handoff, to WriteAgent, is a declared edge. -/
theorem declared_handoff_graph_witness :
    agent_workflow.root_agent = "ResearchAgent" ∧
    agent_workflow.agents.map FunctionAgent.name =
      ["ResearchAgent", "WriteAgent", "ReviewAgent"] ∧
    research_agent.can_handoff_to = ["WriteAgent"] ∧
    write_agent.can_handoff_to = ["ReviewAgent", "ResearchAgent"] ∧
    review_agent.can_handoff_to = ["ResearchAgent", "WriteAgent"] ∧
    ("ResearchAgent", "WriteAgent") ∈ [("ResearchAgent", "WriteAgent"),
      ("WriteAgent", "ReviewAgent"), ("WriteAgent", "ResearchAgent"),
      ("ReviewAgent", "ResearchAgent"), ("ReviewAgent", "WriteAgent")] :=
  declared_handoff_graph "ResearchAgent" "WriteAgent" ReachableAgent.root
    ⟨research_agent, by simp [agent_workflow], rfl, by simp [research_agent]⟩

/-- Counterexample to C6 as stated: an agent-output event with non-empty
content arriving while its `current_agent_name` differs from the tracked
agent (here, the run's very first event) triggers the leading banner
branch, and the `elif` chain — which would have printed the content — is
skipped, so the free-text output is not printed for that event. -/
theorem agent_output_not_printed_on_agent_change :
    renderEvent none
      (Event.agentOutput "ResearchAgent" "I will research the topic." []) =
      (some "ResearchAgent", [OutputLine.banner "ResearchAgent"]) ∧
    "I will research the topic." ≠ "" ∧
    OutputLine.output "I will research the topic." ∉
      (renderEvent none
        (Event.agentOutput "ResearchAgent" "I will research the topic." [])).2 :=
  ⟨by decide, by decide, by decide⟩

/-- Claim C6 (amended): for an agent-output event whose `current_agent_name`
equals the tracked current agent, the renderer prints the free-text output
(when non-empty) and/or the planned tool names (when present); when the
event's `current_agent_name` differs from the tracked agent, only the agent
banner is printed for that event. -/
theorem agent_output_rendering (n content : String) (tcs : List String) :
    renderEvent (some n) (Event.agentOutput n content tcs) =
      (some n,
        (if content ≠ "" then [OutputLine.output content] else []) ++
        (if tcs ≠ [] then [OutputLine.planningTools tcs] else [])) ∧
    (∀ cur, cur ≠ some n →
      renderEvent cur (Event.agentOutput n content tcs) =
        (some n, [OutputLine.banner n])) := by
  constructor
  · simp [renderEvent, eventCurrentAgentName, renderBody]
  · intro cur hne
    have hns : some n ≠ cur := fun heq => hne heq.symm
    simp [renderEvent, eventCurrentAgentName, hns]

/-- Witness for C6 (amended), at a concrete matching and a concrete
non-matching tracked agent. -/
theorem agent_output_rendering_witness :
    renderEvent (some "WriteAgent")
      (Event.agentOutput "WriteAgent" "Drafting the report." ["write_report"]) =
      (some "WriteAgent", [OutputLine.output "Drafting the report.",
        OutputLine.planningTools ["write_report"]]) ∧
    renderEvent none
      (Event.agentOutput "WriteAgent" "Drafting the report." ["write_report"]) =
      (some "WriteAgent", [OutputLine.banner "WriteAgent"]) := by
  have h := agent_output_rendering "WriteAgent" "Drafting the report." ["write_report"]
  refine ⟨?_, h.2 none (by decide)⟩
  rw [h.1]
  decide

/-- Claim C7: for every tool-call-result event and every tool output value
(text or not), rendering is a total function producing the header and the
output truncated by `[:300]`; the truncated output never exceeds 300
characters and is exactly 300 when the output is longer. -/
theorem tool_result_rendering_truncates (cur : Option String) (name : String)
    (v : PyValue) :
    renderEvent cur (Event.toolCallResult name v) =
      (cur, [OutputLine.toolResultHeader name,
        OutputLine.toolResultOutput (pySlice (pyStr v) 300)]) ∧
    (pySlice (pyStr v) 300).length ≤ 300 ∧
    ((pyStr v).length > 300 → (pySlice (pyStr v) 300).length = 300) := by
  refine ⟨rfl, ?_, ?_⟩
  · rw [pySlice_length]
    exact Nat.min_le_left _ _
  · intro hlong
    rw [pySlice_length]
    exact Nat.min_eq_left (Nat.le_of_lt hlong)

/-- Witness for C7: a 301-character string output and a non-text (`None`)
output, rendered concretely. -/
theorem tool_result_rendering_truncates_witness :
    (pyStr (PyValue.str longOutput)).length > 300 ∧
    (pySlice (pyStr (PyValue.str longOutput)) 300).length = 300 ∧
    renderEvent none (Event.toolCallResult "search_web" PyValue.noneV) =
      (none, [OutputLine.toolResultHeader "search_web",
        OutputLine.toolResultOutput "None"]) := by
  have hlong : (pyStr (PyValue.str longOutput)).length > 300 := by
    show (List.replicate 301 'x').length > 300
    rw [List.length_replicate]
    omega
  have h := tool_result_rendering_truncates none "search_web" PyValue.noneV
  have h' := tool_result_rendering_truncates none "search_web"
    (PyValue.str longOutput)
  exact ⟨hlong, h'.2.2 hlong, h.1⟩

/-- Claim C8: each state-mutating tool returns its fixed confirmation
string for every argument and every prior state. -/
theorem tools_return_fixed_confirmations (st : WorkflowState) (n t rc rv : String) :
    (∃ st', record_notes st n t = some (st', "Notes recorded.")) ∧
    (write_report st rc).2 = "Report written." ∧
    (review_report st rv).2 = "Report reviewed." := by
  obtain ⟨rn, h⟩ := record_notes_spec st n t
  exact ⟨⟨_, h⟩, rfl, rfl⟩

/-- Claim C9: when the `research_notes` key is missing from the state,
`record_notes` first creates it as an empty mapping and then inserts, so
the call succeeds (no failing lookup) and yields the one-entry mapping. -/
theorem record_notes_missing_key_safe (st : WorkflowState) (n t : String)
    (h : st.research_notes = none) :
    record_notes st n t =
      some ({ st with research_notes := some [(t, n)] }, "Notes recorded.") := by
  simp [record_notes, h, dictInsert]

/-- Witness for C9: a concrete state lacking the `research_notes` key. -/
theorem record_notes_missing_key_safe_witness :
    record_notes
      { research_notes := none, report_content := "Not written yet."
        review := "Review required." } "Findings." "UX best practices" =
      some ({ research_notes := some [("UX best practices", "Findings.")]
              report_content := "Not written yet.", review := "Review required." },
        "Notes recorded.") :=
  record_notes_missing_key_safe
    { research_notes := none, report_content := "Not written yet."
      review := "Review required." } "Findings." "UX best practices" rfl

/-- Claim C10: each state-mutating tool changes only its own field:
`record_notes` preserves `report_content` and `review`, `write_report`
preserves `research_notes` and `review`, and `review_report` preserves
`research_notes` and `report_content`. -/
theorem tools_frame_conditions (st : WorkflowState) (n t rc rv : String) :
    (∃ st', record_notes st n t = some (st', "Notes recorded.") ∧
      st'.report_content = st.report_content ∧ st'.review = st.review) ∧
    (write_report st rc).1.research_notes = st.research_notes ∧
    (write_report st rc).1.review = st.review ∧
    (review_report st rv).1.research_notes = st.research_notes ∧
    (review_report st rv).1.report_content = st.report_content := by
  obtain ⟨rn, h⟩ := record_notes_spec st n t
  exact ⟨⟨_, h, rfl, rfl⟩, rfl, rfl, rfl, rfl⟩

end PRDAgents
